import Mathlib

/-!
Verification of the infographic-bot repository (`bot/` Python sources).

The development shallowly embeds the Python code as executable Lean
definitions over `List Char` (Python `str`), `List Nat` (Python `bytes`)
and a small JSON value type (`JVal`, the values produced by `json.loads`).
Stateful code (the session map, the per-user FSM) is embedded with
explicit state passing; HTTP networking is a function (`net`) from the
concrete request the code builds to an abstract network outcome; library
collaborators (`json.loads`, `base64.b64encode/b64decode`) are function
parameters.  Fallible Python code (uncaught exceptions) is embedded with
`Except`.
-/

set_option autoImplicit false

/-! ### Python string helpers (`str.strip`, substring search)

`bot/services/grok_service.py` uses `str.strip()` and two `re.search`
patterns; the functions below implement exactly the semantics those call
sites rely on, over `List Char`. -/

/-- Python `str.isspace` characters relevant to `str.strip()` (ASCII). -/
def pyIsSpace (c : Char) : Bool :=
  c = ' ' || c = '\t' || c = '\n' || c = '\r' || c = '\x0b' || c = '\x0c'

/-- Left part of Python `str.strip()`. -/
def pyStripL (l : List Char) : List Char := l.dropWhile pyIsSpace

/-- Right part of Python `str.strip()`. -/
def pyStripR (l : List Char) : List Char := (pyStripL l.reverse).reverse

/-- Python `str.strip()`. -/
def pyStrip (l : List Char) : List Char := pyStripR (pyStripL l)

/-- Does `pat` occur as a contiguous substring (Python `in`)? -/
def containsSub (pat : List Char) : List Char → Bool
  | [] => pat.isEmpty
  | c :: cs => pat.isPrefixOf (c :: cs) || containsSub pat cs

/-- The three-backtick markdown fence marker. -/
def fence3 : List Char := '`' :: '`' :: '`' :: []

/-- Split a string at the first occurrence of "```" (if any):
`splitFence l = some (pre, post)` means `l = pre ++ "```" ++ post` with
`pre` containing no fence. -/
def splitFence : List Char → Option (List Char × List Char)
  | [] => none
  | c :: cs =>
    if fence3.isPrefixOf (c :: cs) then some ([], cs.drop 2)
    else
      match splitFence cs with
      | some (pre, post) => some (c :: pre, post)
      | none => none

/-- The fence-stripping step of `extract_json_from_text`
(`re.search(r'```(?:json)?\s*([\s\S]*?)```', text)`, then
`group(1).strip()` on success, `text` unchanged on failure).
The regex matches starting at the first "```"; `(?:json)?` consumes a
literal `json` tag when present, `\s*` the following whitespace, and the
lazy group runs to the earliest subsequent "```". -/
def fenceStep (t : List Char) : List Char :=
  match splitFence t with
  | none => t
  | some (_, rest) =>
    let rest2 := if ("json".toList).isPrefixOf rest then rest.drop 4 else rest
    match splitFence (pyStripL rest2) with
    | none => t
    | some (inner, _) => pyStrip inner

/-- Longest prefix of `l` ending at the last occurrence of `c`
(`none` when `c ∉ l`).  Implements the greedy part of
`re.search(r'(\{[\s\S]*\}|\[[\s\S]*\])', text)`. -/
def cutAtLast (c : Char) : List Char → Option (List Char)
  | [] => none
  | x :: xs =>
    match cutAtLast c xs with
    | some ys => some (x :: ys)
    | none => if x = c then some [x] else none

/-- The JSON-object/array searching step of `extract_json_from_text`:
`re.search(r'(\{[\s\S]*\}|\[[\s\S]*\])', text)`.  The match starts at the
first `{` that has a later `}` (the `{` alternative is tried first at
each position) or the first `[` that has a later `]`, and runs greedily
to the last such closing delimiter. -/
def jsonSearch : List Char → Option (List Char)
  | [] => none
  | x :: xs =>
    if x = '{' then
      match cutAtLast '}' xs with
      | some ys => some ('{' :: ys)
      | none => jsonSearch xs
    else if x = '[' then
      match cutAtLast ']' xs with
      | some ys => some ('[' :: ys)
      | none => jsonSearch xs
    else jsonSearch xs

/-- `extract_json_from_text` (grok_service.py, lines 12-27).  Strips the
input, strips one markdown code fence when present, then returns the
brace/bracket-delimited JSON-looking substring when one exists, and the
(fence-handled) text itself otherwise.  The Python function is annotated
`Optional[str]` but never returns `None`. -/
def extract_json_from_text (s : List Char) : List Char :=
  let t := fenceStep (pyStrip s)
  match jsonSearch t with
  | some j => j
  | none => t


/-! ### Python values

`JVal` models the values `json.loads` can produce and that the bot's
dict-shuffling code manipulates (fractional JSON numbers are not needed
by any verified code path and are omitted).  `Bytes` models Python
`bytes`. -/

abbrev Bytes := List Nat

inductive JVal where
  | jnull
  | jbool (b : Bool)
  | jint (n : Int)
  | jstr (s : List Char)
  | jlist (l : List JVal)
  | jdict (d : List (List Char × JVal))

/-- Python truthiness of a `JVal` (`if not x`, `if x`). -/
def pyTruthy : JVal → Bool
  | .jnull => false
  | .jbool b => b
  | .jint n => n != 0
  | .jstr s => !s.isEmpty
  | .jlist l => !l.isEmpty
  | .jdict d => !d.isEmpty

/-- Is the value a Python dict? -/
def JVal.isDict : JVal → Bool
  | .jdict _ => true
  | _ => false

/-- Exceptions that can escape the embedded Python code. -/
inductive PyErr where
  | attributeError
  | keyError
  | typeError
  | indexError
  deriving DecidableEq

/-- Key lookup in a dict payload. -/
def dictLookup (d : List (List Char × JVal)) (k : List Char) : Option JVal :=
  d.lookup k

/-- Defaulted lookup on a value known to be a dict (helper for
specifications; `pyGet` below is the embedding of `dict.get`). -/
def dGetD (v : JVal) (k : List Char) (dflt : JVal) : JVal :=
  match v with
  | .jdict d => (dictLookup d k).getD dflt
  | _ => dflt

/-- Python `v.get(k, dflt)`: raises `AttributeError` when `v` is not a
dict. -/
def pyGet (v : JVal) (k : List Char) (dflt : JVal) : Except PyErr JVal :=
  match v with
  | .jdict d => .ok ((dictLookup d k).getD dflt)
  | _ => .error .attributeError

/-- Python `v[k]` for a string key: `KeyError` when the key is missing,
`TypeError` when `v` is not subscriptable by strings. -/
def pyIndex (v : JVal) (k : List Char) : Except PyErr JVal :=
  match v with
  | .jdict d =>
    match dictLookup d k with
    | some x => .ok x
    | none => .error .keyError
  | _ => .error .typeError

/-- Python `a + b` on JSON values as used by
`generate_full_analysis` (list and string concatenation; other
combinations raise `TypeError`). -/
def pyAdd (a b : JVal) : Except PyErr JVal :=
  match a, b with
  | .jlist x, .jlist y => .ok (.jlist (x ++ y))
  | .jstr x, .jstr y => .ok (.jstr (x ++ y))
  | .jint x, .jint y => .ok (.jint (x + y))
  | _, _ => .error .typeError

/-- Python slice `l[:n]` on a list for an `int` bound (negative bounds
count from the end). -/
def pySliceTo {α : Type} (n : Int) (l : List α) : List α :=
  if 0 ≤ n then l.take n.toNat else l.take (l.length - (-n).toNat)

/-- Python `v[:n]` on a JSON value (`TypeError` unless `v` is a list or
string). -/
def pySlice (n : Int) (v : JVal) : Except PyErr JVal :=
  match v with
  | .jlist l => .ok (.jlist (pySliceTo n l))
  | .jstr s => .ok (.jstr (pySliceTo n s))
  | _ => .error .typeError

/-- Python `", ".join(v)`: joins a list of strings (a string joins its
one-character pieces); anything else raises `TypeError`. -/
def pyJoinComma (v : JVal) : Except PyErr (List Char) :=
  match v with
  | .jlist l =>
    match l.mapM (fun x => match x with | .jstr s => some s | _ => none) with
    | some parts => .ok (List.intercalate (',' :: ' ' :: []) parts)
    | none => .error .typeError
  | .jstr s => .ok (List.intercalate (',' :: ' ' :: []) (s.map (fun c => [c])))
  | _ => .error .typeError

/-- Python `f"{x}"` on an `Optional[str]` (`None` renders as `"None"`). -/
def pyStrOpt : Option (List Char) → List Char
  | some s => s
  | none => 'N' :: 'o' :: 'n' :: 'e' :: []

/-- min/max-compatible view of a JSON value: Python `min(7, v)` /
`max(3, v)` work for ints and bools (`True == 1`, `False == 0`) and
raise `TypeError` otherwise. -/
def pyToIntForCompare (v : JVal) : Except PyErr Int :=
  match v with
  | .jint n => .ok n
  | .jbool b => .ok (if b then 1 else 0)
  | _ => .error .typeError

/-! ### Configuration (`bot/config.py`)

Only the fields read by the verified code are embedded; the
environment-derived secrets (`os.getenv`) parametrize nothing below. -/

structure Config where
  grok_api_url : List Char := "https://api.x.ai/v1/chat/completions".toList
  grok_model : List Char := "grok-4".toList
  openrouter_api_url : List Char := "https://openrouter.ai/api/v1/chat/completions".toList
  nanobanana_model : List Char := "google/gemini-exp-1206".toList
  max_image_size_mb : Nat := 10
  image_timeout_seconds : Nat := 120
  default_slides_count : Int := 5
  min_slides : Int := 3
  max_slides : Int := 7
  image_width : Nat := 900
  image_height : Nat := 1200

def config : Config := {}

/-! ### Grok service (`bot/services/grok_service.py`)

The chat messages are embedded structurally: each message records its
role and which prompt template it carries, together with the values
interpolated into that template.  The literal (Russian) template text
only parametrizes the request and is not reproduced. -/

/-- Which Grok prompt template a message carries, with its
interpolations. -/
inductive GTag where
  | analyzeKeywordsSystem
  | analyzeKeywordsUser (product_name category : List Char)
  | seoContentSystem
  | seoContentUser (product_name category keywords_str : List Char)
  | slidePromptsSystem
  | slidePromptsUser (product_name category : List Char) (title : JVal)
      (num_slides : Int) (slides_info : List (JVal × JVal × JVal))
  | seoWithCtrSystem
  | seoWithCtrUser (product_description : List Char) (num_slides : Int)

/-- One chat message `{"role": ..., "content": ...}`. -/
structure GrokMsg where
  role : List Char
  content : GTag

/-- A JSON field value of the request payload. -/
inductive GPayloadVal where
  | vstr (s : List Char)
  | vmsgs (m : List GrokMsg)
  | vnum (q : ℚ)
  | vint (n : Nat)

/-- An HTTP request issued by `GrokService._make_request`. -/
structure GrokRequest where
  url : List Char
  payload : List (List Char × GPayloadVal)
  timeoutTotalSeconds : Nat

/-- What the network does with one request: an HTTP response (whose body,
once `response.json()` and the `["choices"][0]["message"]["content"]`
indexing succeed, is a content string, and `none` when they raise), an
`aiohttp.ClientError`, or any other exception. -/
inductive GrokNetOutcome where
  | response (status : Nat) (content : Option (List Char))
  | connError
  | unexpectedError

/-- The request `GrokService._make_request` builds for given messages and
temperature (grok_service.py, lines 40-58). -/
def grok_request (messages : List GrokMsg) (temperature : ℚ) : GrokRequest :=
  { url := config.grok_api_url
    payload := [("model".toList, .vstr config.grok_model),
                ("messages".toList, .vmsgs messages),
                ("temperature".toList, .vnum temperature),
                ("max_tokens".toList, .vint 8192)]
    timeoutTotalSeconds := 120 }

/-- `GrokService._make_request` (grok_service.py, lines 38-75): posts one
request; returns the content string on a 200 response whose body parses,
`None` on a non-200 status, on a `ClientError` and on any other
exception.  The second component is the list of HTTP requests issued. -/
def grok_make_request (net : GrokRequest → GrokNetOutcome)
    (messages : List GrokMsg) (temperature : ℚ) :
    Option (List Char) × List GrokRequest :=
  let req := grok_request messages temperature
  (match net req with
   | .response status content => if status = 200 then content else none
   | .connError => none
   | .unexpectedError => none,
   [req])

/-- The response post-processing shared by the four Grok wrappers:
`if not response: return None`, then `json.loads` of
`extract_json_from_text(response)` with `JSONDecodeError` mapped to
`None`.  `jsonLoads` embeds `json.loads` (`none` = raises). -/
def grok_request_parse (jsonLoads : List Char → Option JVal)
    (net : GrokRequest → GrokNetOutcome)
    (messages : List GrokMsg) (temperature : ℚ) : Option JVal :=
  match (grok_make_request net messages temperature).1 with
  | none => none
  | some response =>
    if response.isEmpty then none
    else
      match jsonLoads (extract_json_from_text response) with
      | some result => some result
      | none => none

/-- Messages built by `analyze_keywords`. -/
def analyze_keywords_messages (product_name category : List Char) : List GrokMsg :=
  [⟨"system".toList, .analyzeKeywordsSystem⟩,
   ⟨"user".toList, .analyzeKeywordsUser product_name category⟩]

/-- `GrokService.analyze_keywords` (grok_service.py, lines 77-119). -/
def analyze_keywords (jsonLoads : List Char → Option JVal)
    (net : GrokRequest → GrokNetOutcome)
    (product_name category : List Char) : Option JVal :=
  grok_request_parse jsonLoads net
    (analyze_keywords_messages product_name category) (0.5 : ℚ)

/-- Messages built by `generate_seo_content` once
`keywords_str = ", ".join(keywords[:15])` has been computed. -/
def generate_seo_content_messages (product_name category keywords_str : List Char) :
    List GrokMsg :=
  [⟨"system".toList, .seoContentSystem⟩,
   ⟨"user".toList, .seoContentUser product_name category keywords_str⟩]

/-- `GrokService.generate_seo_content` (grok_service.py, lines 121-180).
`keywords` is the (decoded JSON) value passed by the caller; building
`keywords_str` can raise (`join` over non-strings), hence `Except`. -/
def generate_seo_content (jsonLoads : List Char → Option JVal)
    (net : GrokRequest → GrokNetOutcome)
    (product_name category : List Char) (keywords : JVal) :
    Except PyErr (Option JVal) :=
  match pySlice 15 keywords with
  | .error e => .error e
  | .ok sliced =>
    match pyJoinComma sliced with
    | .error e => .error e
    | .ok keywords_str =>
      .ok (grok_request_parse jsonLoads net
        (generate_seo_content_messages product_name category keywords_str) (0.7 : ℚ))

/-- The `(s['slide'], s['focus'], s['text'])` extraction performed by the
`slides_info` list comprehension in `generate_slide_prompts`; raises on a
non-dict element or a missing key. -/
def slidesInfoOf : List JVal → Except PyErr (List (JVal × JVal × JVal))
  | [] => .ok []
  | s :: rest =>
    match pyIndex s "slide".toList with
    | .error e => .error e
    | .ok a =>
      match pyIndex s "focus".toList with
      | .error e => .error e
      | .ok b =>
        match pyIndex s "text".toList with
        | .error e => .error e
        | .ok c =>
          match slidesInfoOf rest with
          | .error e => .error e
          | .ok rs => .ok ((a, b, c) :: rs)

/-- Messages built by `generate_slide_prompts`; the construction
(`seo_content.get("slides_content", [])[:num_slides]`, the comprehension
over it, `seo_content.get('title', '')`) can raise. -/
def generate_slide_prompts_messages (product_name category : List Char)
    (seo_content : JVal) (num_slides : Int) : Except PyErr (List GrokMsg) :=
  match pyGet seo_content "slides_content".toList (.jlist []) with
  | .error e => .error e
  | .ok sc =>
    match pySlice num_slides sc with
    | .error e => .error e
    | .ok sliced =>
      let elems : List JVal := match sliced with
        | .jlist l => l
        | .jstr s => s.map (fun c => .jstr [c])
        | _ => []
      match slidesInfoOf elems with
      | .error e => .error e
      | .ok info =>
        match pyGet seo_content "title".toList (.jstr []) with
        | .error e => .error e
        | .ok title =>
          .ok [⟨"system".toList, .slidePromptsSystem⟩,
               ⟨"user".toList, .slidePromptsUser product_name category title num_slides info⟩]

/-- `GrokService.generate_slide_prompts` (grok_service.py, lines
182-256). -/
def generate_slide_prompts (jsonLoads : List Char → Option JVal)
    (net : GrokRequest → GrokNetOutcome)
    (product_name category : List Char) (seo_content : JVal) (num_slides : Int) :
    Except PyErr (Option JVal) :=
  match generate_slide_prompts_messages product_name category seo_content num_slides with
  | .error e => .error e
  | .ok msgs => .ok (grok_request_parse jsonLoads net msgs (0.8 : ℚ))

/-- Messages built by `generate_seo_with_ctr_prompts`. -/
def generate_seo_with_ctr_messages (product_description : List Char)
    (num_slides : Int) : List GrokMsg :=
  [⟨"system".toList, .seoWithCtrSystem⟩,
   ⟨"user".toList, .seoWithCtrUser product_description num_slides⟩]

/-- `GrokService.generate_seo_with_ctr_prompts` (grok_service.py, lines
310-385). -/
def generate_seo_with_ctr_prompts (jsonLoads : List Char → Option JVal)
    (net : GrokRequest → GrokNetOutcome)
    (product_description : List Char) (num_slides : Int) : Option JVal :=
  grok_request_parse jsonLoads net
    (generate_seo_with_ctr_messages product_description num_slides) (0.7 : ℚ)

/-- `GrokService.generate_full_analysis` (grok_service.py, lines
258-308): keywords, then SEO content, then the slide-count clamp
`max(config.min_slides, min(config.max_slides, num_slides))`, then slide
prompts, assembled into the result dict. -/
def generate_full_analysis (jsonLoads : List Char → Option JVal)
    (net : GrokRequest → GrokNetOutcome)
    (product_name category : List Char) (num_slides : Option Int) :
    Except PyErr (Option JVal) :=
  match analyze_keywords jsonLoads net product_name category with
  | none => .ok none
  | some keywords_data =>
    if !pyTruthy keywords_data then .ok none
    else
      match pyGet keywords_data "high_frequency".toList (.jlist []) with
      | .error e => .error e
      | .ok hf =>
        match pyGet keywords_data "mid_frequency".toList (.jlist []) with
        | .error e => .error e
        | .ok mf =>
          match pyGet keywords_data "low_frequency".toList (.jlist []) with
          | .error e => .error e
          | .ok lf =>
            match pyAdd hf mf with
            | .error e => .error e
            | .ok hm =>
              match pyAdd hm lf with
              | .error e => .error e
              | .ok all0 =>
                match (if pyTruthy all0 then Except.ok all0
                       else pyGet keywords_data "keywords".toList (.jlist [])) with
                | .error e => .error e
                | .ok all_keywords =>
                  match generate_seo_content jsonLoads net product_name category all_keywords with
                  | .error e => .error e
                  | .ok none => .ok none
                  | .ok (some seo_content) =>
                    if !pyTruthy seo_content then .ok none
                    else
                      match (match num_slides with
                             | some n => Except.ok n
                             | none =>
                               match pyGet seo_content "optimal_slides".toList
                                   (.jint config.default_slides_count) with
                               | .error e => .error e
                               | .ok v => pyToIntForCompare v) with
                      | .error e => .error e
                      | .ok ns0 =>
                        match generate_slide_prompts jsonLoads net product_name category
                            seo_content (max config.min_slides (min config.max_slides ns0)) with
                        | .error e => .error e
                        | .ok none => .ok none
                        | .ok (some prompts_data) =>
                          if !pyTruthy prompts_data then .ok none
                          else
                            match pyGet prompts_data "style_guide".toList (.jstr []) with
                            | .error e => .error e
                            | .ok style_guide =>
                              match pyGet prompts_data "prompts".toList (.jlist []) with
                              | .error e => .error e
                              | .ok slide_prompts =>
                                .ok (some (.jdict
                                  [("product_name".toList, .jstr product_name),
                                   ("category".toList, .jstr category),
                                   ("keywords".toList, keywords_data),
                                   ("seo".toList, seo_content),
                                   ("num_slides".toList,
                                    .jint (max config.min_slides (min config.max_slides ns0))),
                                   ("style_guide".toList, style_guide),
                                   ("slide_prompts".toList, slide_prompts)]))

/-! ### NanoBanana service (`bot/services/nanobanana_service.py`)

Requests carry multimodal messages: text blocks (embedded structurally,
as which prompt template with which interpolations) and image blocks
(carrying the base64 payload).  `b64enc` embeds
`bot/utils/image_utils.image_to_base64`; `b64dec` embeds
`base64.b64decode` (`none` = raises). -/

/-- Which NanoBanana prompt template a text block carries. -/
inductive NBTag where
  | removeBgPrompt
  | slideMainPrompt (product_name : List Char) (slide_text : JVal)
  | slideOtherPrompt (slide_number : JVal) (product_name : List Char)
      (slide_text : JVal) (style_description : List Char)
  | styleRefMarker
  | editPrompt (prompt : List Char)
  | analyzePrompt
  | firstSlidePrompt (prompt : List Char)
  | firstSlideRefMarker
  | freePrompt (prompt : List Char)
  | refSlidePrompt (slide_description : List Char) (slide_number : Int)
  | refMainMarker
  | refProductMarker
  | refAdditionalMarker

/-- One block of a multimodal message content list. -/
inductive NBBlock where
  | textBlock (tag : NBTag)
  | imageBlock (base64 : List Char)

/-- One multimodal chat message. -/
structure NBMsg where
  role : List Char
  content : List NBBlock

/-- A JSON field value of the OpenRouter request payload. -/
inductive NBPayloadVal where
  | vstr (s : List Char)
  | vmsgs (m : List NBMsg)
  | vnum (q : ℚ)
  | vint (n : Nat)
  | vmods (l : List (List Char))

/-- An HTTP request issued by `NanoBananaService._make_request`. -/
structure NBRequest where
  url : List Char
  payload : List (List Char × NBPayloadVal)
  timeoutTotalSeconds : Nat

/-- An element of the `message["images"]` array of a response: a dict
(collapsed to the string `img.get("image_url", {}).get("url", "")`, `[]`
for every missing-key default), a plain string, or anything else. -/
inductive NBImgItem where
  | dictItem (url : List Char)
  | strItem (s : List Char)
  | otherItem

/-- An element of a list-valued `message["content"]`: a dict (collapsed
to its `"type"` value and `item.get("image_url", {}).get("url", "")`
string), or anything else. -/
inductive NBContentItem where
  | dictItem (typ : List Char) (url : List Char)
  | otherItem

/-- The `content` field of a response message (`.get("content", "")`
defaults a missing key to the empty string). -/
inductive NBContent where
  | cstr (s : List Char)
  | clist (items : List NBContentItem)

/-- One response message dict. -/
structure NBMessage where
  images : Option (List NBImgItem)
  content : NBContent

/-- One element of the response `choices` array (`message = none` means
the `"message"` key is absent). -/
structure NBChoice where
  message : Option NBMessage

/-- A decoded OpenRouter response body: either a dict without a
`"choices"` key (including the empty dict) or one with its choices
array. -/
inductive NBResponse where
  | noChoices
  | withChoices (choices : List NBChoice)

/-- What the network does with one request (body `none` means
`response.json()` raises). -/
inductive NBNetOutcome where
  | response (status : Nat) (body : Option NBResponse)
  | connError
  | unexpectedError

/-- The request `NanoBananaService._make_request` builds
(nanobanana_service.py, lines 27-48). -/
def nb_request (messages : List NBMsg) (temperature : ℚ) (max_tokens : Nat) : NBRequest :=
  { url := config.openrouter_api_url
    payload := [("model".toList, .vstr config.nanobanana_model),
                ("messages".toList, .vmsgs messages),
                ("temperature".toList, .vnum temperature),
                ("max_tokens".toList, .vint max_tokens),
                ("modalities".toList, .vmods ["image".toList, "text".toList])]
    timeoutTotalSeconds := config.image_timeout_seconds }

/-- `NanoBananaService._make_request` (nanobanana_service.py, lines
20-62): posts one request; returns the decoded JSON body on a 200
response, `None` on a non-200 status, a `ClientError` or any other
exception. -/
def nb_make_request (net : NBRequest → NBNetOutcome)
    (messages : List NBMsg) (temperature : ℚ) (max_tokens : Nat) :
    Option NBResponse × List NBRequest :=
  let req := nb_request messages temperature max_tokens
  (match net req with
   | .response status body => if status = 200 then body else none
   | .connError => none
   | .unexpectedError => none,
   [req])

/-- Python `url.split(",")[1]`: the segment between the first and second
comma; `none` (an `IndexError`) when the string has no comma. -/
def splitCommaSecond (s : List Char) : Option (List Char) :=
  match s.dropWhile (fun c => c ≠ ',') with
  | [] => none
  | _ :: rest => some (rest.takeWhile (fun c => c ≠ ','))

/-- The `data:image` prefix checked by `url.startswith("data:image")`
and by `"data:image" in content`. -/
def dataImageLit : List Char := "data:image".toList

/-- `re.search(r'data:image/[^;]+;base64,([A-Za-z0-9+/=]+)', content)`:
the base64 character class. -/
def isB64Char (c : Char) : Bool :=
  ('A' ≤ c && c ≤ 'Z') || ('a' ≤ c && c ≤ 'z') || ('0' ≤ c && c ≤ '9') ||
    c = '+' || c = '/' || c = '='

/-- One anchored attempt of the `data:image/...;base64,...` regex at the
start of `l`. -/
def findB64At (l : List Char) : Option (List Char) :=
  if ("data:image/".toList).isPrefixOf l then
    let rest := l.drop 11
    let run := rest.takeWhile (fun c => c ≠ ';')
    if run.isEmpty then none
    else
      let rest2 := rest.drop run.length
      if (";base64,".toList).isPrefixOf rest2 then
        let b := (rest2.drop 8).takeWhile isB64Char
        if b.isEmpty then none else some b
      else none
  else none

/-- Leftmost match of the `data:image/...;base64,...` regex. -/
def findB64 : List Char → Option (List Char)
  | [] => none
  | c :: cs =>
    match findB64At (c :: cs) with
    | some r => some r
    | none => findB64 cs

/-- The `for img in message["images"]` loop of
`_extract_image_from_response`.  `none` means the loop finished without
returning; `some r` means the function returned from inside the loop
(`r = none` models an exception — no comma in the data URL, or
`b64decode` raising — caught by the surrounding `try`). -/
def scanImages (b64dec : List Char → Option Bytes) : List NBImgItem → Option (Option Bytes)
  | [] => none
  | .dictItem url :: rest =>
    if !url.isEmpty && dataImageLit.isPrefixOf url then
      some (match splitCommaSecond url with
            | some d => b64dec d
            | none => none)
    else scanImages b64dec rest
  | .strItem s :: rest =>
    if dataImageLit.isPrefixOf s then
      some (match splitCommaSecond s with
            | some d => b64dec d
            | none => none)
    else scanImages b64dec rest
  | .otherItem :: rest => scanImages b64dec rest

/-- The `for item in content` loop over a list-valued `content`, then
the string-content regex fallback, of `_extract_image_from_response`. -/
def scanContent (b64dec : List Char → Option Bytes) : NBContent → Option Bytes
  | .clist items =>
    (items.findSome? (fun item =>
      match item with
      | .dictItem typ url =>
        if typ = "image_url".toList then
          if !url.isEmpty && dataImageLit.isPrefixOf url then
            some (match splitCommaSecond url with
                  | some d => b64dec d
                  | none => none)
          else none
        else none
      | .otherItem => none)).getD none
  | .cstr s =>
    if containsSub dataImageLit s then
      match findB64 s with
      | some b => b64dec b
      | none => none
    else none

/-- `NanoBananaService._extract_image_from_response`
(nanobanana_service.py, lines 117-166).  The whole body sits in a
`try/except` returning `None`, so every internal raise is `none` here. -/
def extract_image_from_response (b64dec : List Char → Option Bytes)
    (response : NBResponse) : Option Bytes :=
  match (match response with
         | .noChoices => some { images := none, content := .cstr [] : NBMessage }
         | .withChoices [] => none
         | .withChoices (c :: _) =>
           some (c.message.getD { images := none, content := .cstr [] })) with
  | none => none
  | some message =>
    match message.images with
    | some imgs =>
      match scanImages b64dec imgs with
      | some r => r
      | none => scanContent b64dec message.content
    | none => scanContent b64dec message.content

/-- The message list built by `remove_background`. -/
def remove_background_messages (b64enc : Bytes → List Char) (image_bytes : Bytes) :
    List NBMsg :=
  [⟨"user".toList, [.textBlock .removeBgPrompt, .imageBlock (b64enc image_bytes)]⟩]

/-- `NanoBananaService.remove_background` (nanobanana_service.py, lines
64-115).  On a usable response whose content does not look like an
image (and whenever extraction fails or yields falsy bytes) the ORIGINAL
`image_bytes` is returned; `choices: []` raises `IndexError` and a
choice without `"message"` raises `KeyError`, both uncaught. -/
def remove_background (net : NBRequest → NBNetOutcome)
    (b64enc : Bytes → List Char) (b64dec : List Char → Option Bytes)
    (image_bytes : Bytes) : Except PyErr (Option Bytes) × List NBRequest :=
  let (resp, reqs) :=
    nb_make_request net (remove_background_messages b64enc image_bytes) (0.3 : ℚ) 8192
  (match resp with
   | none => .ok none
   | some r =>
     match r with
     | .noChoices => .ok none
     | .withChoices [] => .error .indexError
     | .withChoices (c :: _) =>
       match c.message with
       | none => .error .keyError
       | some msg =>
         let looksLikeImage : Bool :=
           match msg.content with
           | .cstr s => containsSub dataImageLit s
           | .clist _ => true
         if looksLikeImage then
           match extract_image_from_response b64dec r with
           | some ex => if !ex.isEmpty then .ok (some ex) else .ok (some image_bytes)
           | none => .ok (some image_bytes)
         else .ok (some image_bytes),
   reqs)

/-- The message list built by `generate_infographic_slide`
(nanobanana_service.py, lines 184-249): main or style-following prompt,
the product photo, and — when a truthy reference is given and the slide
is not the main one — a style-reference marker plus the reference
photo.  `is_main` is the raw value from the slide prompt dict (Python
only tests its truthiness). -/
def generate_infographic_slide_messages (b64enc : Bytes → List Char)
    (product_image_bytes : Bytes) (slide_number : JVal) (slide_text : JVal)
    (product_name : List Char) (style_description : List Char) (is_main : JVal)
    (reference_image_bytes : Option Bytes) : List NBMsg :=
  let promptTag : NBTag :=
    if pyTruthy is_main then .slideMainPrompt product_name slide_text
    else .slideOtherPrompt slide_number product_name slide_text style_description
  let base : List NBBlock :=
    [.textBlock promptTag, .imageBlock (b64enc product_image_bytes)]
  let content : List NBBlock :=
    match reference_image_bytes with
    | some rb =>
      if !rb.isEmpty && !pyTruthy is_main then
        base ++ [.textBlock .styleRefMarker, .imageBlock (b64enc rb)]
      else base
    | none => base
  [⟨"user".toList, content⟩]

/-- `NanoBananaService.generate_infographic_slide`
(nanobanana_service.py, lines 168-261).  Returns the extracted image
when the response yields truthy bytes (`if extracted_image:`), `None`
otherwise. -/
def generate_infographic_slide (net : NBRequest → NBNetOutcome)
    (b64enc : Bytes → List Char) (b64dec : List Char → Option Bytes)
    (product_image_bytes : Bytes) (slide_number : JVal) (slide_text : JVal)
    (product_name : List Char) (style_description : List Char) (is_main : JVal)
    (reference_image_bytes : Option Bytes) : Option Bytes × List NBRequest :=
  let (resp, reqs) :=
    nb_make_request net
      (generate_infographic_slide_messages b64enc product_image_bytes slide_number
        slide_text product_name style_description is_main reference_image_bytes)
      (0.7 : ℚ) 8192
  (match resp with
   | none => none
   | some r =>
     match extract_image_from_response b64dec r with
     | some b => if !b.isEmpty then some b else none
     | none => none,
   reqs)

/-- One entry of the list returned by `generate_all_slides`; `error`
records whether the `"error": True` key is present. -/
structure SlideOut where
  slide_num : JVal
  is_main : JVal
  image_bytes : Option Bytes
  text_overlay : JVal
  error : Bool

/-- The `for slide_info in slide_prompts` loop of `generate_all_slides`,
threading `main_slide_image` (the style reference captured from the
first successful main slide). -/
def generate_all_slides_go (net : NBRequest → NBNetOutcome)
    (b64enc : Bytes → List Char) (b64dec : List Char → Option Bytes)
    (product_image_bytes : Bytes) (style_guide product_name : List Char) :
    List JVal → Option Bytes → Except PyErr (List SlideOut)
  | [], _ => .ok []
  | slide_info :: rest, main_slide_image =>
    match pyGet slide_info "is_main".toList (.jbool false) with
    | .error e => .error e
    | .ok is_main =>
      match pyGet slide_info "slide".toList (.jint 1) with
      | .error e => .error e
      | .ok slide_num =>
        match pyGet slide_info "text_overlay".toList (.jstr []) with
        | .error e => .error e
        | .ok text_overlay =>
          let image_bytes :=
            (generate_infographic_slide net b64enc b64dec product_image_bytes
              slide_num text_overlay product_name style_guide is_main
              (if pyTruthy is_main then none else main_slide_image)).1
          match image_bytes with
          | some b =>
            if !b.isEmpty then
              match generate_all_slides_go net b64enc b64dec product_image_bytes
                  style_guide product_name rest
                  (if pyTruthy is_main then some b else main_slide_image) with
              | .error e => .error e
              | .ok rs => .ok (⟨slide_num, is_main, some b, text_overlay, false⟩ :: rs)
            else
              match generate_all_slides_go net b64enc b64dec product_image_bytes
                  style_guide product_name rest main_slide_image with
              | .error e => .error e
              | .ok rs => .ok (⟨slide_num, is_main, none, text_overlay, true⟩ :: rs)
          | none =>
            match generate_all_slides_go net b64enc b64dec product_image_bytes
                style_guide product_name rest main_slide_image with
            | .error e => .error e
            | .ok rs => .ok (⟨slide_num, is_main, none, text_overlay, true⟩ :: rs)

/-- `NanoBananaService.generate_all_slides` (nanobanana_service.py,
lines 263-318). -/
def generate_all_slides (net : NBRequest → NBNetOutcome)
    (b64enc : Bytes → List Char) (b64dec : List Char → Option Bytes)
    (product_image_bytes : Bytes) (slide_prompts : List JVal)
    (style_guide product_name : List Char) : Except PyErr (List SlideOut) :=
  generate_all_slides_go net b64enc b64dec product_image_bytes style_guide
    product_name slide_prompts none

/-! ### Sessions (`bot/models/session.py`) -/

/-- `UserSession` (session.py, lines 6-41): the per-user mutable record;
every content field defaults to `None`. -/
structure UserSession where
  user_id : Int
  created_at : Nat
  product_name : Option (List Char) := none
  category : Option (List Char) := none
  original_image : Option Bytes := none
  no_bg_image : Option Bytes := none
  reference_image : Option Bytes := none
  slide_prompt : Option (List Char) := none
  product_description : Option (List Char) := none
  keywords : Option JVal := none
  seo_title : Option (List Char) := none
  seo_card_content : Option (List JVal) := none
  seo_description : Option (List Char) := none
  num_slides : Option Int := none
  slide_prompts : Option (List JVal) := none
  style_guide : Option (List Char) := none
  main_slide_design : Option JVal := none
  slides_designs : Option (List JVal) := none
  full_analysis : Option JVal := none

/-- `UserSession(user_id=user_id)`: a fresh session (dataclass defaults;
`now` embeds the impure `datetime.now()` default). -/
def UserSession.new (user_id : Int) (now : Nat) : UserSession :=
  { user_id := user_id, created_at := now }

/-- `UserSession.reset` (session.py, lines 43-61): sets every
accumulated content field back to `None`. -/
def UserSession.reset (s : UserSession) : UserSession :=
  { s with
    product_name := none
    category := none
    original_image := none
    no_bg_image := none
    reference_image := none
    slide_prompt := none
    product_description := none
    keywords := none
    seo_title := none
    seo_card_content := none
    seo_description := none
    num_slides := none
    slide_prompts := none
    style_guide := none
    main_slide_design := none
    slides_designs := none
    full_analysis := none }

/-- `SessionManager` (session.py, lines 156-180): the
`dict[int, UserSession]` session map, embedded as an association list
(first binding wins, matching dict semantics for the operations below,
which never create a duplicate key). -/
structure SessionManager where
  _sessions : List (Int × UserSession)

/-- `SessionManager.has_session`. -/
def SessionManager.has_session (m : SessionManager) (user_id : Int) : Bool :=
  (m._sessions.lookup user_id).isSome

/-- `SessionManager.get_session`: creates and stores a fresh session on
first contact, returns the stored record afterwards. -/
def SessionManager.get_session (m : SessionManager) (user_id : Int) (now : Nat) :
    UserSession × SessionManager :=
  match m._sessions.lookup user_id with
  | some s => (s, m)
  | none =>
    let s := UserSession.new user_id now
    (s, ⟨(user_id, s) :: m._sessions⟩)

/-- `SessionManager.reset_session`: resets the stored record in place
when present, does nothing otherwise. -/
def SessionManager.reset_session (m : SessionManager) (user_id : Int) : SessionManager :=
  ⟨m._sessions.map (fun p => if p.1 = user_id then (p.1, p.2.reset) else p)⟩

/-- `SessionManager.delete_session`: removes the record when present. -/
def SessionManager.delete_session (m : SessionManager) (user_id : Int) : SessionManager :=
  ⟨m._sessions.filter (fun p => p.1 != user_id)⟩

/-! ### The keywords handler (`bot/handlers/keywords.py`) -/

/-- The `KeywordsStates` FSM states. -/
inductive KwFsmState where
  | waiting_for_product_name
  | waiting_for_category
  | waiting_for_custom_category
  | processing
  deriving DecidableEq

/-- What `process_keywords` edits the processing message to. -/
inductive KwShown where
  | formattedKeywords
  | staticNotFoundError
  deriving DecidableEq

/-- Observable outcome of one `process_keywords` run: the final message
shown, the final FSM state (`state.clear()` runs on every path) and the
updated session. -/
structure KwOutcome where
  shown : KwShown
  fsm_final : Option KwFsmState
  session : UserSession

/-- `process_keywords` (keywords.py, lines 102-148): sets the FSM to
`processing`, calls `analyze_keywords` on the session's product name and
category (an unset `Optional[str]` renders as `"None"` in the f-string
prompts), stores truthy results and shows them, otherwise shows the
static error text; `state.clear()` runs at the end of every path. -/
def process_keywords (jsonLoads : List Char → Option JVal)
    (net : GrokRequest → GrokNetOutcome) (sess : UserSession) : KwOutcome :=
  match analyze_keywords jsonLoads net (pyStrOpt sess.product_name)
      (pyStrOpt sess.category) with
  | some keywords_data =>
    if pyTruthy keywords_data then
      ⟨.formattedKeywords, none, { sess with keywords := some keywords_data }⟩
    else ⟨.staticNotFoundError, none, sess⟩
  | none => ⟨.staticNotFoundError, none, sess⟩

/-! ### Lemmas about the session map -/

lemma lookup_map_reset (l : List (Int × UserSession)) (uid : Int) :
    (l.map (fun p => if p.1 = uid then (p.1, p.2.reset) else p)).lookup uid
      = (l.lookup uid).map UserSession.reset := by
  induction l with
  | nil => rfl
  | cons p t ih =>
    obtain ⟨k, v⟩ := p
    by_cases h : k = uid
    · subst h
      simp [List.lookup_cons, ih]
    · simp [List.lookup_cons, h, beq_false_of_ne (Ne.symm h), ih]

lemma lookup_filter_ne (l : List (Int × UserSession)) (uid : Int) :
    (l.filter (fun p => p.1 != uid)).lookup uid = none := by
  induction l with
  | nil => rfl
  | cons p t ih =>
    obtain ⟨k, v⟩ := p
    by_cases h : k = uid
    · subst h
      simpa using ih
    · have hb : ((k, v).1 != uid) = true := by simp [h]
      simp [List.filter_cons, hb, List.lookup_cons, beq_false_of_ne (Ne.symm h), ih]

/-- C4: after `UserSession.reset` (hence after
`SessionManager.reset_session` for any user whose record exists, as
triggered by `/start`, the main-menu and the cancel handlers), the image
fields `original_image`, `no_bg_image` and `reference_image` are `None`,
as are all other accumulated content fields. -/
theorem reset_clears_all_content_fields :
    (∀ s : UserSession,
      s.reset.original_image = none ∧ s.reset.no_bg_image = none ∧
      s.reset.reference_image = none ∧ s.reset.product_name = none ∧
      s.reset.category = none ∧ s.reset.slide_prompt = none ∧
      s.reset.product_description = none ∧ s.reset.keywords = none ∧
      s.reset.seo_title = none ∧ s.reset.seo_card_content = none ∧
      s.reset.seo_description = none ∧ s.reset.num_slides = none ∧
      s.reset.slide_prompts = none ∧ s.reset.style_guide = none ∧
      s.reset.main_slide_design = none ∧ s.reset.slides_designs = none ∧
      s.reset.full_analysis = none) ∧
    (∀ (m : SessionManager) (uid : Int) (s2 : UserSession),
      (m.reset_session uid)._sessions.lookup uid = some s2 →
      s2.original_image = none ∧ s2.no_bg_image = none ∧
      s2.reference_image = none ∧ s2.product_name = none ∧
      s2.category = none ∧ s2.slide_prompt = none ∧
      s2.product_description = none ∧ s2.keywords = none ∧
      s2.seo_title = none ∧ s2.seo_card_content = none ∧
      s2.seo_description = none ∧ s2.num_slides = none ∧
      s2.slide_prompts = none ∧ s2.style_guide = none ∧
      s2.main_slide_design = none ∧ s2.slides_designs = none ∧
      s2.full_analysis = none) := by
  constructor
  · intro s
    refine ⟨rfl, rfl, rfl, rfl, rfl, rfl, rfl, rfl, rfl, rfl, rfl, rfl, rfl, rfl, rfl, rfl, rfl⟩
  · intro m uid s2 h
    rw [show (m.reset_session uid)._sessions
          = m._sessions.map (fun p => if p.1 = uid then (p.1, p.2.reset) else p) from rfl,
        lookup_map_reset] at h
    match hm : m._sessions.lookup uid with
    | none => rw [hm] at h; cases h
    | some s0 =>
      rw [hm] at h
      cases h
      exact ⟨rfl, rfl, rfl, rfl, rfl, rfl, rfl, rfl, rfl, rfl, rfl, rfl, rfl, rfl, rfl, rfl, rfl⟩

/-- C4 witness: a concrete manager holding one populated session. -/
theorem reset_clears_all_content_fields_witness :
    ((SessionManager.mk [(5, { UserSession.new 5 0 with
        original_image := some [1], product_name := some ['x'] })]).reset_session 5)._sessions.lookup 5
      = some (UserSession.new 5 0).reset ∧
    (UserSession.new 5 0).reset.original_image = none := by
  constructor
  · rfl
  · exact (reset_clears_all_content_fields.2
      (SessionManager.mk [(5, { UserSession.new 5 0 with
        original_image := some [1], product_name := some ['x'] })]) 5
      (UserSession.new 5 0).reset rfl).1

/-- C5: `get_session` creates and stores a fresh `UserSession` for an
unknown user and returns the stored record on every later call; a second
call returns the same record and leaves the map unchanged, and
`has_session` holds after any `get_session` call. -/
theorem get_session_create_then_stable :
    (∀ (m : SessionManager) (uid : Int) (now : Nat),
      m._sessions.lookup uid = none →
      (m.get_session uid now).1 = UserSession.new uid now ∧
      ((m.get_session uid now).2)._sessions.lookup uid = some (UserSession.new uid now)) ∧
    (∀ (m : SessionManager) (uid : Int) (now now2 : Nat),
      ((m.get_session uid now).2).get_session uid now2
        = ((m.get_session uid now).1, (m.get_session uid now).2)) ∧
    (∀ (m : SessionManager) (uid : Int) (now : Nat),
      ((m.get_session uid now).2).has_session uid = true) := by
  have hstore : ∀ (m : SessionManager) (uid : Int) (now : Nat),
      ((m.get_session uid now).2)._sessions.lookup uid
        = some (m.get_session uid now).1 := by
    intro m uid now
    unfold SessionManager.get_session
    cases hm : m._sessions.lookup uid with
    | some s => simp [hm]
    | none => simp [List.lookup_cons]
  refine ⟨?_, ?_, ?_⟩
  · intro m uid now hm
    unfold SessionManager.get_session
    rw [hm]
    exact ⟨rfl, by simp [List.lookup_cons]⟩
  · intro m uid now now2
    have h := hstore m uid now
    rw [show ((m.get_session uid now).2).get_session uid now2
          = (match ((m.get_session uid now).2)._sessions.lookup uid with
             | some s => (s, (m.get_session uid now).2)
             | none =>
               (UserSession.new uid now2,
                ⟨(uid, UserSession.new uid now2) :: ((m.get_session uid now).2)._sessions⟩)
             : UserSession × SessionManager) from rfl, h]
  · intro m uid now
    unfold SessionManager.has_session
    rw [hstore m uid now]
    rfl

/-- C5 witness: the empty manager, user 7. -/
theorem get_session_create_then_stable_witness :
    ((SessionManager.mk []).get_session 7 3).1 = UserSession.new 7 3 ∧
    (((SessionManager.mk []).get_session 7 3).2)._sessions.lookup 7
      = some (UserSession.new 7 3) :=
  get_session_create_then_stable.1 (SessionManager.mk []) 7 3 rfl

/-- C10: `UserSession.reset` leaves `user_id` and `created_at`
unchanged; `reset_session` preserves the presence of every user's
record, while `delete_session` removes it. -/
theorem reset_frame_and_presence :
    (∀ s : UserSession, s.reset.user_id = s.user_id ∧ s.reset.created_at = s.created_at) ∧
    (∀ (m : SessionManager) (uid : Int),
      (m.reset_session uid).has_session uid = m.has_session uid) ∧
    (∀ (m : SessionManager) (uid : Int),
      (m.delete_session uid).has_session uid = false) := by
  refine ⟨fun s => ⟨rfl, rfl⟩, ?_, ?_⟩
  · intro m uid
    unfold SessionManager.has_session
    rw [show (m.reset_session uid)._sessions
          = m._sessions.map (fun p => if p.1 = uid then (p.1, p.2.reset) else p) from rfl,
        lookup_map_reset]
    cases m._sessions.lookup uid <;> rfl
  · intro m uid
    unfold SessionManager.has_session
    rw [show (m.delete_session uid)._sessions
          = m._sessions.filter (fun p => p.1 != uid) from rfl,
        lookup_filter_ne]
    rfl

/-- C8: every payload `GrokService._make_request` sends consists of
exactly the four fields `model`, `messages`, `temperature` and
`max_tokens`, with `model` fixed to the configured model and
`max_tokens` fixed at 8192, for every messages list and temperature. -/
theorem grok_payload_exact_fields (messages : List GrokMsg) (temperature : ℚ) :
    (grok_request messages temperature).payload.map Prod.fst
      = ["model".toList, "messages".toList, "temperature".toList, "max_tokens".toList] ∧
    (grok_request messages temperature).payload.lookup "model".toList
      = some (.vstr config.grok_model) ∧
    (grok_request messages temperature).payload.lookup "messages".toList
      = some (.vmsgs messages) ∧
    (grok_request messages temperature).payload.lookup "temperature".toList
      = some (.vnum temperature) ∧
    (grok_request messages temperature).payload.lookup "max_tokens".toList
      = some (.vint 8192) :=
  ⟨rfl, rfl, rfl, rfl, rfl⟩

/-- An outcome of the text endpoint on which `_make_request` must fail:
a non-200 status, a body whose decoding raises, a `ClientError`, or any
other exception. -/
def grokHttpFailure : GrokNetOutcome → Prop
  | .response status content => status ≠ 200 ∨ content = none
  | .connError => True
  | .unexpectedError => True

/-- An outcome of the image endpoint on which `_make_request` must
fail. -/
def nbHttpFailure : NBNetOutcome → Prop
  | .response status body => status ≠ 200 ∨ body = none
  | .connError => True
  | .unexpectedError => True

/-- C9: each `_make_request` issues exactly one HTTP request, with a
fixed total timeout of 120 seconds on the text endpoint and
`config.image_timeout_seconds = 120` on the image endpoint; on any
failure it returns `None` without issuing a second request. -/
theorem make_request_single_fixed_timeout :
    (∀ (net : GrokRequest → GrokNetOutcome) (messages : List GrokMsg) (t : ℚ),
      (grok_make_request net messages t).2 = [grok_request messages t] ∧
      (grok_request messages t).timeoutTotalSeconds = 120 ∧
      (grokHttpFailure (net (grok_request messages t)) →
        (grok_make_request net messages t).1 = none)) ∧
    (∀ (net : NBRequest → NBNetOutcome) (messages : List NBMsg) (t : ℚ) (mt : Nat),
      (nb_make_request net messages t mt).2 = [nb_request messages t mt] ∧
      (nb_request messages t mt).timeoutTotalSeconds = config.image_timeout_seconds ∧
      config.image_timeout_seconds = 120 ∧
      (nbHttpFailure (net (nb_request messages t mt)) →
        (nb_make_request net messages t mt).1 = none)) := by
  constructor
  · intro net messages t
    refine ⟨rfl, rfl, ?_⟩
    intro hf
    show (match net (grok_request messages t) with
          | .response status content => if status = 200 then content else none
          | .connError => none
          | .unexpectedError => none) = none
    cases ho : net (grok_request messages t) with
    | response status content =>
      rw [ho] at hf
      rcases hf with hs | hc
      · simp [hs]
      · subst hc
        by_cases h200 : status = 200 <;> simp [h200]
    | connError => rfl
    | unexpectedError => rfl
  · intro net messages t mt
    refine ⟨rfl, rfl, rfl, ?_⟩
    intro hf
    show (match net (nb_request messages t mt) with
          | .response status body => if status = 200 then body else none
          | .connError => none
          | .unexpectedError => none) = none
    cases ho : net (nb_request messages t mt) with
    | response status body =>
      rw [ho] at hf
      rcases hf with hs | hc
      · simp [hs]
      · subst hc
        by_cases h200 : status = 200 <;> simp [h200]
    | connError => rfl
    | unexpectedError => rfl

/-- C9 witness: a network that always raises a client error. -/
theorem make_request_single_fixed_timeout_witness :
    (grok_make_request (fun _ => .connError) [] (0.5 : ℚ)).1 = none ∧
    (nb_make_request (fun _ => .connError) [] (0.3 : ℚ) 8192).1 = none :=
  ⟨(make_request_single_fixed_timeout.1 (fun _ => .connError) [] (0.5 : ℚ)).2.2 trivial,
   (make_request_single_fixed_timeout.2 (fun _ => .connError) [] (0.3 : ℚ) 8192).2.2.2 trivial⟩


/-- An outcome of the text endpoint on which the Grok wrappers must
return `None`: non-200 status, client error, any other exception, a body
whose decoding raises, or a 200 content that does not parse as JSON
after extraction. -/
def grokCallFailure (jsonLoads : List Char → Option JVal) : GrokNetOutcome → Prop
  | .response status content =>
    status ≠ 200 ∨ ∀ c, content = some c → jsonLoads (extract_json_from_text c) = none
  | .connError => True
  | .unexpectedError => True

lemma grok_make_request_fst (net : GrokRequest → GrokNetOutcome)
    (messages : List GrokMsg) (t : ℚ) :
    (grok_make_request net messages t).1
      = (match net (grok_request messages t) with
         | .response status content => if status = 200 then content else none
         | .connError => none
         | .unexpectedError => none) := rfl

lemma grok_request_parse_eq_none (jsonLoads : List Char → Option JVal)
    (net : GrokRequest → GrokNetOutcome) (messages : List GrokMsg) (t : ℚ)
    (hf : grokCallFailure jsonLoads (net (grok_request messages t))) :
    grok_request_parse jsonLoads net messages t = none := by
  have h1 : (grok_make_request net messages t).1 = none ∨
      ∃ c, (grok_make_request net messages t).1 = some c ∧
        jsonLoads (extract_json_from_text c) = none := by
    rw [grok_make_request_fst]
    cases ho : net (grok_request messages t) with
    | response status content =>
      rw [ho] at hf
      have hf2 : status ≠ 200 ∨
          ∀ c, content = some c → jsonLoads (extract_json_from_text c) = none := hf
      by_cases hs : status = 200
      · subst hs
        rcases hf2 with hs | hp
        · exact absurd rfl hs
        · cases content with
          | none => left; simp
          | some c => right; exact ⟨c, by simp, hp c rfl⟩
      · left; simp [hs]
    | connError => left; rfl
    | unexpectedError => left; rfl
  unfold grok_request_parse
  rcases h1 with h | ⟨c, hc, hp⟩
  · rw [h]
  · rw [hc]
    by_cases hempty : c.isEmpty
    · simp [hempty]
    · simp [hempty, hp]

/-- C1: when a call to the text-completion service fails — non-200
status, network/client error, other exception, or unparseable content —
each of `analyze_keywords`, `generate_seo_content`,
`generate_slide_prompts` and `generate_seo_with_ctr_prompts` returns
`None` without raising (for the latter two, whenever the pure
prompt-building that precedes the request completes, i.e. whenever the
function returns at all); `process_keywords` then shows the static
error message and leaves the FSM state cleared. -/
theorem grok_failures_return_none_and_clear_state
    (jsonLoads : List Char → Option JVal) (net : GrokRequest → GrokNetOutcome)
    (hAll : ∀ (messages : List GrokMsg) (t : ℚ),
      grokCallFailure jsonLoads (net (grok_request messages t))) :
    (∀ product_name category,
      analyze_keywords jsonLoads net product_name category = none) ∧
    (∀ product_name category keywords r,
      generate_seo_content jsonLoads net product_name category keywords = .ok r →
      r = none) ∧
    (∀ product_name category seo_content num_slides r,
      generate_slide_prompts jsonLoads net product_name category seo_content num_slides
        = .ok r → r = none) ∧
    (∀ product_description num_slides,
      generate_seo_with_ctr_prompts jsonLoads net product_description num_slides = none) ∧
    (∀ sess : UserSession,
      process_keywords jsonLoads net sess
        = ⟨.staticNotFoundError, none, sess⟩) := by
  refine ⟨?_, ?_, ?_, ?_, ?_⟩
  · intro pn cat
    exact grok_request_parse_eq_none jsonLoads net _ _ (hAll _ _)
  · intro pn cat kw r h
    unfold generate_seo_content at h
    split at h
    · cases h
    · split at h
      · cases h
      · rw [grok_request_parse_eq_none jsonLoads net _ _ (hAll _ _)] at h
        cases h
        rfl
  · intro pn cat seo ns r h
    unfold generate_slide_prompts at h
    split at h
    · cases h
    · rw [grok_request_parse_eq_none jsonLoads net _ _ (hAll _ _)] at h
      cases h
      rfl
  · intro pd ns
    exact grok_request_parse_eq_none jsonLoads net _ _ (hAll _ _)
  · intro sess
    unfold process_keywords
    rw [show analyze_keywords jsonLoads net (pyStrOpt sess.product_name)
          (pyStrOpt sess.category)
        = grok_request_parse jsonLoads net
            (analyze_keywords_messages (pyStrOpt sess.product_name)
              (pyStrOpt sess.category)) (0.5 : ℚ) from rfl,
        grok_request_parse_eq_none jsonLoads net _ _ (hAll _ _)]

/-- C1 witness: a network raising `aiohttp.ClientError` on every
request, a `json.loads` that always raises. -/
theorem grok_failures_return_none_and_clear_state_witness :
    analyze_keywords (fun _ => none) (fun _ => .connError) [] [] = none ∧
    generate_seo_with_ctr_prompts (fun _ => none) (fun _ => .connError) [] 5 = none ∧
    process_keywords (fun _ => none) (fun _ => .connError) (UserSession.new 1 0)
      = ⟨.staticNotFoundError, none, UserSession.new 1 0⟩ :=
  ⟨(grok_failures_return_none_and_clear_state (fun _ => none) (fun _ => .connError)
      (fun _ _ => trivial)).1 [] [],
   (grok_failures_return_none_and_clear_state (fun _ => none) (fun _ => .connError)
      (fun _ _ => trivial)).2.2.2.1 [] 5,
   (grok_failures_return_none_and_clear_state (fun _ => none) (fun _ => .connError)
      (fun _ _ => trivial)).2.2.2.2 (UserSession.new 1 0)⟩

/-- C6: whenever `generate_full_analysis` returns a result — for any
product, category, caller-supplied slide count (including `None`) and
any LLM-reported `optimal_slides` value — the `num_slides` field of the
result dict is clamped into `[config.min_slides, config.max_slides]`,
which is `[3, 7]`. -/
theorem full_analysis_num_slides_clamped
    (jsonLoads : List Char → Option JVal) (net : GrokRequest → GrokNetOutcome)
    (product_name category : List Char) (num_slides : Option Int) (r : JVal)
    (h : generate_full_analysis jsonLoads net product_name category num_slides
      = .ok (some r)) :
    ∃ (kw seo sg sp : JVal) (ns : Int),
      r = .jdict
        [("product_name".toList, .jstr product_name),
         ("category".toList, .jstr category),
         ("keywords".toList, kw),
         ("seo".toList, seo),
         ("num_slides".toList, .jint ns),
         ("style_guide".toList, sg),
         ("slide_prompts".toList, sp)] ∧
      config.min_slides ≤ ns ∧ ns ≤ config.max_slides ∧
      config.min_slides = 3 ∧ config.max_slides = 7 := by
  unfold generate_full_analysis at h
  repeat' split at h
  all_goals try cases h
  exact ⟨_, _, _, _, _, rfl, le_max_left _ _,
    max_le (by decide) (min_le_left _ _), rfl, rfl⟩

/-- C6 witness: an LLM that always answers the dict
`{"optimal_slides": 9}`; the stored slide count is clamped to 7. -/
theorem full_analysis_num_slides_clamped_witness :
    ∃ r, generate_full_analysis
        (fun _ => some (.jdict [("optimal_slides".toList, .jint 9)]))
        (fun _ => .response 200 (some ['x'])) [] [] none = .ok (some r) ∧
      ∃ (kw seo sg sp : JVal) (ns : Int),
        r = .jdict
          [("product_name".toList, .jstr []),
           ("category".toList, .jstr []),
           ("keywords".toList, kw),
           ("seo".toList, seo),
           ("num_slides".toList, .jint ns),
           ("style_guide".toList, sg),
           ("slide_prompts".toList, sp)] ∧
        config.min_slides ≤ ns ∧ ns ≤ config.max_slides ∧
        config.min_slides = 3 ∧ config.max_slides = 7 :=
  ⟨_, rfl, full_analysis_num_slides_clamped
    (fun _ => some (.jdict [("optimal_slides".toList, .jint 9)]))
    (fun _ => .response 200 (some ['x'])) [] [] none _ rfl⟩

/-- C3 counterexample: a 200 response whose message has no extractable
image data ("choices" present, content a plain string).  The claim says
such a response never yields an image result, but `remove_background`
returns the ORIGINAL image bytes `[1, 2, 3]` — an image result. -/
theorem remove_background_missing_image_counterexample :
    extract_image_from_response (fun _ => none)
      (.withChoices [⟨some ⟨none, .cstr "no image here".toList⟩⟩]) = none ∧
    (remove_background
      (fun _ => .response 200 (some (.withChoices
        [⟨some ⟨none, .cstr "no image here".toList⟩⟩])))
      (fun _ => []) (fun _ => none) [1, 2, 3]).1 = .ok (some [1, 2, 3]) :=
  ⟨rfl, rfl⟩

lemma remove_background_fst (net : NBRequest → NBNetOutcome)
    (b64enc : Bytes → List Char) (b64dec : List Char → Option Bytes)
    (image_bytes : Bytes) :
    (remove_background net b64enc b64dec image_bytes).1
      = (match (nb_make_request net (remove_background_messages b64enc image_bytes)
            (0.3 : ℚ) 8192).1 with
         | none => .ok none
         | some r =>
           match r with
           | .noChoices => .ok none
           | .withChoices [] => .error .indexError
           | .withChoices (c :: _) =>
             match c.message with
             | none => .error .keyError
             | some msg =>
               if (match msg.content with
                   | .cstr s => containsSub dataImageLit s
                   | .clist _ => true) then
                 match extract_image_from_response b64dec r with
                 | some ex =>
                   if !ex.isEmpty then .ok (some ex) else .ok (some image_bytes)
                 | none => .ok (some image_bytes)
               else .ok (some image_bytes)) := rfl

/-- C3 amended: `remove_background` returns a *generated* image only
when it was actually extracted (and truthy): every `some b` result is
either the original input bytes or a successful extraction; and on a
usable response (choices and message present) with no extractable image
data it returns the original input bytes (not `None`, not a generated
image). -/
theorem remove_background_missing_image_amended :
    (∀ (net : NBRequest → NBNetOutcome) (b64enc : Bytes → List Char)
        (b64dec : List Char → Option Bytes) (image_bytes b : Bytes),
      (remove_background net b64enc b64dec image_bytes).1 = .ok (some b) →
      b = image_bytes ∨
        ∃ r, (nb_make_request net (remove_background_messages b64enc image_bytes)
                (0.3 : ℚ) 8192).1 = some r ∧
          extract_image_from_response b64dec r = some b ∧ b.isEmpty = false) ∧
    (∀ (net : NBRequest → NBNetOutcome) (b64enc : Bytes → List Char)
        (b64dec : List Char → Option Bytes) (image_bytes : Bytes)
        (msg : NBMessage) (rest : List NBChoice),
      (nb_make_request net (remove_background_messages b64enc image_bytes)
          (0.3 : ℚ) 8192).1 = some (.withChoices (⟨some msg⟩ :: rest)) →
      extract_image_from_response b64dec (.withChoices (⟨some msg⟩ :: rest)) = none →
      (remove_background net b64enc b64dec image_bytes).1 = .ok (some image_bytes)) := by
  constructor
  · intro net b64enc b64dec image_bytes b h
    rw [remove_background_fst] at h
    cases hresp : (nb_make_request net (remove_background_messages b64enc image_bytes)
        (0.3 : ℚ) 8192).1 with
    | none => rw [hresp] at h; dsimp only at h; cases h
    | some r =>
      rw [hresp] at h
      cases r with
      | noChoices => dsimp only at h; cases h
      | withChoices cs =>
        cases cs with
        | nil => dsimp only at h; cases h
        | cons c rest =>
          dsimp only at h
          cases hc : c.message with
          | none => rw [hc] at h; dsimp only at h; cases h
          | some msg =>
            rw [hc] at h
            dsimp only at h
            split at h
            · cases hex : extract_image_from_response b64dec
                  (.withChoices (c :: rest)) with
              | none => rw [hex] at h; dsimp only at h; cases h; left; rfl
              | some ex =>
                rw [hex] at h
                dsimp only at h
                split at h
                · cases h
                  right
                  refine ⟨_, rfl, hex, ?_⟩
                  rename_i hcond
                  simpa using hcond
                · cases h
                  left; rfl
            · cases h
              left; rfl
  · intro net b64enc b64dec image_bytes msg rest hresp hext
    rw [remove_background_fst, hresp]
    dsimp only
    split
    · rw [hext]
    · rfl

/-- C3 amended witness: a concrete usable 200 response with an empty
content string and a decoder that always fails. -/
theorem remove_background_missing_image_amended_witness :
    (remove_background
      (fun _ => .response 200 (some (.withChoices [⟨some ⟨none, .cstr []⟩⟩])))
      (fun _ => []) (fun _ => none) [9]).1 = .ok (some [9]) :=
  remove_background_missing_image_amended.2
    (fun _ => .response 200 (some (.withChoices [⟨some ⟨none, .cstr []⟩⟩])))
    (fun _ => []) (fun _ => none) [9] ⟨none, .cstr []⟩ [] rfl rfl

/-- Python falsiness of an `Optional[bytes]` (`if image_bytes:` fails on
`None` and on `b""`). -/
def optBytesFalsy : Option Bytes → Bool
  | none => true
  | some b => b.isEmpty

/-- The generation call `generate_all_slides` makes for the slide prompt
`p` when the threaded style reference is `ref`. -/
def slideGenOutcome (net : NBRequest → NBNetOutcome)
    (b64enc : Bytes → List Char) (b64dec : List Char → Option Bytes)
    (product_image_bytes : Bytes) (style_guide product_name : List Char)
    (p : JVal) (ref : Option Bytes) : Option Bytes :=
  (generate_infographic_slide net b64enc b64dec product_image_bytes
    (dGetD p "slide".toList (.jint 1)) (dGetD p "text_overlay".toList (.jstr []))
    product_name style_guide (dGetD p "is_main".toList (.jbool false))
    (if pyTruthy (dGetD p "is_main".toList (.jbool false)) then none else ref)).1

/-- Relation between a slide prompt and its `generate_all_slides`
result entry: for the style reference that was threaded to this slide,
either the generation succeeded with truthy bytes and the entry carries
them (with the prompt's own `slide`, `is_main` and `text_overlay`
values and no error flag), or it failed and the entry has
`image_bytes = None` and `error = True`. -/
def slideEntryRel (net : NBRequest → NBNetOutcome)
    (b64enc : Bytes → List Char) (b64dec : List Char → Option Bytes)
    (product_image_bytes : Bytes) (style_guide product_name : List Char)
    (p : JVal) (e : SlideOut) : Prop :=
  ∃ ref : Option Bytes,
    (∃ b, slideGenOutcome net b64enc b64dec product_image_bytes style_guide
        product_name p ref = some b ∧ b.isEmpty = false ∧
      e = ⟨dGetD p "slide".toList (.jint 1), dGetD p "is_main".toList (.jbool false),
           some b, dGetD p "text_overlay".toList (.jstr []), false⟩) ∨
    (optBytesFalsy (slideGenOutcome net b64enc b64dec product_image_bytes style_guide
        product_name p ref) = true ∧
      e = ⟨dGetD p "slide".toList (.jint 1), dGetD p "is_main".toList (.jbool false),
           none, dGetD p "text_overlay".toList (.jstr []), true⟩)

lemma generate_all_slides_go_structure (net : NBRequest → NBNetOutcome)
    (b64enc : Bytes → List Char) (b64dec : List Char → Option Bytes)
    (product_image_bytes : Bytes) (style_guide product_name : List Char) :
    ∀ (prompts : List JVal) (mainImg : Option Bytes),
      (∀ p ∈ prompts, p.isDict = true) →
      ∃ rs, generate_all_slides_go net b64enc b64dec product_image_bytes style_guide
          product_name prompts mainImg = .ok rs ∧
        List.Forall₂ (slideEntryRel net b64enc b64dec product_image_bytes style_guide
          product_name) prompts rs := by
  intro prompts
  induction prompts with
  | nil => exact fun mainImg _ => ⟨[], rfl, .nil⟩
  | cons p rest ih =>
    intro mainImg h
    have hp : p.isDict = true := h p (List.mem_cons_self p rest)
    obtain ⟨d, rfl⟩ : ∃ d, p = .jdict d := by
      cases p <;> simp [JVal.isDict] at hp
      exact ⟨_, rfl⟩
    have hrest : ∀ q ∈ rest, q.isDict = true :=
      fun q hq => h q (List.mem_cons_of_mem _ hq)
    have hstep : generate_all_slides_go net b64enc b64dec product_image_bytes
        style_guide product_name (JVal.jdict d :: rest) mainImg
      = (match slideGenOutcome net b64enc b64dec product_image_bytes style_guide
            product_name (.jdict d) mainImg with
         | some b =>
           if !b.isEmpty then
             match generate_all_slides_go net b64enc b64dec product_image_bytes
                 style_guide product_name rest
                 (if pyTruthy (dGetD (.jdict d) "is_main".toList (.jbool false))
                  then some b else mainImg) with
             | .error e => .error e
             | .ok rs => .ok (⟨dGetD (.jdict d) "slide".toList (.jint 1),
                 dGetD (.jdict d) "is_main".toList (.jbool false), some b,
                 dGetD (.jdict d) "text_overlay".toList (.jstr []), false⟩ :: rs)
           else
             match generate_all_slides_go net b64enc b64dec product_image_bytes
                 style_guide product_name rest mainImg with
             | .error e => .error e
             | .ok rs => .ok (⟨dGetD (.jdict d) "slide".toList (.jint 1),
                 dGetD (.jdict d) "is_main".toList (.jbool false), none,
                 dGetD (.jdict d) "text_overlay".toList (.jstr []), true⟩ :: rs)
         | none =>
           match generate_all_slides_go net b64enc b64dec product_image_bytes
               style_guide product_name rest mainImg with
           | .error e => .error e
           | .ok rs => .ok (⟨dGetD (.jdict d) "slide".toList (.jint 1),
               dGetD (.jdict d) "is_main".toList (.jbool false), none,
               dGetD (.jdict d) "text_overlay".toList (.jstr []), true⟩ :: rs)) := rfl
    rw [hstep]
    cases hg : slideGenOutcome net b64enc b64dec product_image_bytes style_guide
        product_name (.jdict d) mainImg with
    | none =>
      obtain ⟨rs, hrs, hrel⟩ := ih mainImg hrest
      rw [hrs]
      exact ⟨_, rfl, .cons ⟨mainImg, Or.inr ⟨by rw [hg]; rfl, rfl⟩⟩ hrel⟩
    | some b =>
      dsimp only
      cases hb : b.isEmpty with
      | true =>
        rw [if_neg (by simp [hb])]
        obtain ⟨rs, hrs, hrel⟩ := ih mainImg hrest
        rw [hrs]
        exact ⟨_, rfl, .cons ⟨mainImg, Or.inr ⟨by rw [hg]; exact hb, rfl⟩⟩ hrel⟩
      | false =>
        rw [if_pos (by simp [hb])]
        obtain ⟨rs, hrs, hrel⟩ :=
          ih (if pyTruthy (dGetD (.jdict d) "is_main".toList (.jbool false))
              then some b else mainImg) hrest
        rw [hrs]
        exact ⟨_, rfl, .cons ⟨mainImg, Or.inl ⟨b, hg, hb, rfl⟩⟩ hrel⟩

/-- C7: for every list of slide prompts (dicts), `generate_all_slides`
returns — without raising — a list of exactly the same length, one entry
per prompt in the original order; each entry carries that prompt's
`slide` number, `is_main` flag and `text_overlay`, and an entry has
`image_bytes = None` together with `error = True` exactly when that
slide's generation call failed, while a successful entry carries the
generated bytes and no error flag. -/
theorem generate_all_slides_one_entry_per_prompt (net : NBRequest → NBNetOutcome)
    (b64enc : Bytes → List Char) (b64dec : List Char → Option Bytes)
    (product_image_bytes : Bytes) (slide_prompts : List JVal)
    (style_guide product_name : List Char)
    (h : ∀ p ∈ slide_prompts, p.isDict = true) :
    ∃ rs, generate_all_slides net b64enc b64dec product_image_bytes slide_prompts
        style_guide product_name = .ok rs ∧
      rs.length = slide_prompts.length ∧
      List.Forall₂ (slideEntryRel net b64enc b64dec product_image_bytes style_guide
        product_name) slide_prompts rs := by
  obtain ⟨rs, hrs, hrel⟩ := generate_all_slides_go_structure net b64enc b64dec
    product_image_bytes style_guide product_name slide_prompts none h
  exact ⟨rs, hrs, hrel.length_eq.symm, hrel⟩

/-- C7 witness: one slide-prompt dict against a failing network. -/
theorem generate_all_slides_one_entry_per_prompt_witness :
    ∃ rs, generate_all_slides (fun _ => .connError) (fun _ => []) (fun _ => none)
        [7] [JVal.jdict []] [] [] = .ok rs ∧
      rs.length = [JVal.jdict []].length ∧
      List.Forall₂ (slideEntryRel (fun _ => .connError) (fun _ => []) (fun _ => none)
        [7] [] []) [JVal.jdict []] rs :=
  generate_all_slides_one_entry_per_prompt (fun _ => .connError) (fun _ => [])
    (fun _ => none) [7] [JVal.jdict []] [] []
    (fun p hp => by rw [List.mem_singleton] at hp; subst hp; rfl)

/-! ### Lemmas about `extract_json_from_text` -/

/-- A string shaped like the regex group
`(\{[\s\S]*\}|\[[\s\S]*\])`: brace- or bracket-delimited. -/
def jsonDelimited (j : List Char) : Prop :=
  (∃ mid, j = '{' :: (mid ++ ['}'])) ∨ (∃ mid, j = '[' :: (mid ++ [']']))

/-- The text contains a `{...}` or a `[...]` substring (an opening
delimiter with a matching closer somewhere later). -/
def hasPair (t : List Char) : Prop :=
  (∃ a b c, t = a ++ '{' :: (b ++ '}' :: c)) ∨
  (∃ a b c, t = a ++ '[' :: (b ++ ']' :: c))

/-- C2 counterexample: the input `"``` a ``` {"b":1}"` contains the JSON
object substring `{"b":1}`, but `extract_json_from_text` returns `"a"`
(the content of the code fence that precedes it), which is neither that
substring nor brace/bracket-delimited. -/
theorem extract_json_contains_object_counterexample :
    (∃ pre post, ("``` a ``` \x7b\"b\":1\x7d".toList)
        = pre ++ ("\x7b\"b\":1\x7d".toList) ++ post) ∧
    extract_json_from_text ("``` a ``` \x7b\"b\":1\x7d".toList) = "a".toList ∧
    "a".toList ≠ ("\x7b\"b\":1\x7d".toList) ∧
    ¬jsonDelimited (extract_json_from_text ("``` a ``` \x7b\"b\":1\x7d".toList)) := by
  refine ⟨⟨"``` a ``` ".toList, [], by decide⟩, by decide, by decide, ?_⟩
  rw [show extract_json_from_text ("``` a ``` \x7b\"b\":1\x7d".toList) = "a".toList
      from by decide]
  rintro (⟨mid, hm⟩ | ⟨mid, hm⟩) <;> simp [List.cons_eq_cons] at hm

lemma pyStripL_cons_of_not_space (c : Char) (hc : pyIsSpace c = false) (xs : List Char) :
    pyStripL (c :: xs) = c :: xs := by
  simp [pyStripL, List.dropWhile_cons, hc]

lemma pyStrip_fence_wrapped (mid : List Char) :
    pyStrip (fence3 ++ mid ++ fence3) = fence3 ++ mid ++ fence3 := by
  have hbt : pyIsSpace '`' = false := rfl
  have h1 : pyStripL (fence3 ++ mid ++ fence3) = fence3 ++ mid ++ fence3 := by
    rw [show fence3 ++ mid ++ fence3 = '`' :: ('`' :: '`' :: [] ++ mid ++ fence3) from by
      simp [fence3]]
    rw [pyStripL_cons_of_not_space _ hbt]
  have h2 : (fence3 ++ mid ++ fence3).reverse
      = '`' :: ('`' :: '`' :: [] ++ mid.reverse ++ fence3) := by
    simp [fence3]
  unfold pyStrip pyStripR
  rw [h1, h2, pyStripL_cons_of_not_space _ hbt, ← h2, List.reverse_reverse]

lemma splitFence_at_fence (rest : List Char) :
    splitFence ('`' :: '`' :: '`' :: rest) = some ([], rest) := by
  have hc : fence3.isPrefixOf ('`' :: '`' :: '`' :: rest) = true := by
    simp [fence3, List.isPrefixOf]
  unfold splitFence
  rw [hc]
  rfl

lemma splitFence_append_fence (l : List Char) (rest : List Char)
    (hl : ∀ c ∈ l, c ≠ '`') :
    splitFence (l ++ '`' :: '`' :: '`' :: rest) = some (l, rest) := by
  induction l with
  | nil => exact splitFence_at_fence rest
  | cons x xs ih =>
    have hx : x ≠ '`' := hl x (List.mem_cons_self x xs)
    have hcond : fence3.isPrefixOf (x :: (xs ++ '`' :: '`' :: '`' :: rest)) = false := by
      simp [fence3, List.isPrefixOf, Ne.symm hx]
    rw [List.cons_append]
    unfold splitFence
    rw [hcond]
    rw [ih (fun c hc => hl c (List.mem_cons_of_mem x hc))]
    rfl

lemma pyStripL_append_backtick (body rest : List Char) :
    pyStripL (body ++ '`' :: rest) = pyStripL body ++ '`' :: rest := by
  induction body with
  | nil => simp [pyStripL, List.dropWhile_cons, show pyIsSpace '`' = false from rfl]
  | cons x xs ih =>
    by_cases hx : pyIsSpace x = true
    · simp [pyStripL, List.dropWhile_cons, hx] at ih ⊢
      exact ih
    · rw [Bool.not_eq_true] at hx
      simp [pyStripL, List.dropWhile_cons, hx]

lemma pyStripL_idem (l : List Char) : pyStripL (pyStripL l) = pyStripL l := by
  induction l with
  | nil => rfl
  | cons x xs ih =>
    by_cases hx : pyIsSpace x = true
    · simp [pyStripL, List.dropWhile_cons, hx] at ih ⊢
      exact ih
    · rw [Bool.not_eq_true] at hx
      simp [pyStripL, List.dropWhile_cons, hx]

lemma pyStrip_pyStripL (l : List Char) : pyStrip (pyStripL l) = pyStrip l := by
  unfold pyStrip
  rw [pyStripL_idem]

lemma pyStrip_subset (l : List Char) : ∀ c ∈ pyStrip l, c ∈ l := by
  intro c hc
  unfold pyStrip pyStripR pyStripL at hc
  rw [List.mem_reverse] at hc
  have h1 := (List.dropWhile_sublist (p := pyIsSpace)
    (l := (List.dropWhile pyIsSpace l).reverse)).subset hc
  rw [List.mem_reverse] at h1
  exact (List.dropWhile_sublist (p := pyIsSpace) (l := l)).subset h1

lemma json_prefix_append_fence (body : List Char)
    (h : ("json".toList).isPrefixOf body = false) :
    ("json".toList).isPrefixOf (body ++ '`' :: '`' :: '`' :: []) = false := by
  match body with
  | [] => rfl
  | [a] => simp [List.isPrefixOf]
  | [a, b] => simp [List.isPrefixOf]
  | [a, b, c] => simp [List.isPrefixOf]
  | a :: b :: c :: d :: tl =>
    simp only [List.isPrefixOf, List.cons_append, Bool.and_true] at h ⊢
    exact h

lemma fenceStep_wrapped (body : List Char) (hbt : ∀ c ∈ body, c ≠ '`')
    (hjson : ("json".toList).isPrefixOf (body ++ fence3) = false) :
    fenceStep (fence3 ++ body ++ fence3) = pyStrip body := by
  have h1 : splitFence (fence3 ++ body ++ fence3) = some ([], body ++ fence3) := by
    rw [show fence3 ++ body ++ fence3 = '`' :: '`' :: '`' :: (body ++ fence3) from by
      simp [fence3]]
    exact splitFence_at_fence _
  have h2 : pyStripL (body ++ fence3) = pyStripL body ++ '`' :: '`' :: '`' :: [] := by
    rw [show body ++ fence3 = body ++ '`' :: '`' :: '`' :: [] from rfl]
    exact pyStripL_append_backtick body _
  have h3 : splitFence (pyStripL body ++ '`' :: '`' :: '`' :: []) = some (pyStripL body, []) :=
    splitFence_append_fence _ _ (fun c hc =>
      hbt c ((List.dropWhile_sublist (p := pyIsSpace) (l := body)).subset hc))
  unfold fenceStep
  rw [h1]
  dsimp only
  rw [hjson, if_neg (by simp), h2, h3]
  exact pyStrip_pyStripL body

lemma fenceStep_wrapped_json (body : List Char) (hbt : ∀ c ∈ body, c ≠ '`') :
    fenceStep (fence3 ++ "json".toList ++ body ++ fence3) = pyStrip body := by
  have h1 : splitFence (fence3 ++ "json".toList ++ body ++ fence3)
      = some ([], "json".toList ++ (body ++ fence3)) := by
    rw [show fence3 ++ "json".toList ++ body ++ fence3
        = '`' :: '`' :: '`' :: ("json".toList ++ (body ++ fence3)) from by simp [fence3]]
    exact splitFence_at_fence _
  have hpre : ("json".toList).isPrefixOf ("json".toList ++ (body ++ fence3)) = true := by
    simp [List.isPrefixOf]
  have hdrop : ("json".toList ++ (body ++ fence3)).drop 4 = body ++ fence3 := rfl
  have h2 : pyStripL (body ++ fence3) = pyStripL body ++ '`' :: '`' :: '`' :: [] :=
    pyStripL_append_backtick body _
  have h3 : splitFence (pyStripL body ++ '`' :: '`' :: '`' :: []) = some (pyStripL body, []) :=
    splitFence_append_fence _ _ (fun c hc =>
      hbt c ((List.dropWhile_sublist (p := pyIsSpace) (l := body)).subset hc))
  unfold fenceStep
  rw [h1]
  dsimp only
  rw [hpre, if_pos rfl, hdrop, h2, h3]
  exact pyStrip_pyStripL body

lemma cutAtLast_append_self (c : Char) (l : List Char) :
    cutAtLast c (l ++ [c]) = some (l ++ [c]) := by
  induction l with
  | nil => simp [cutAtLast]
  | cons x xs ih => simp [cutAtLast, ih]

lemma jsonSearch_cons (x : Char) (xs : List Char) :
    jsonSearch (x :: xs)
      = if x = '{' then
          match cutAtLast '}' xs with
          | some ys => some ('{' :: ys)
          | none => jsonSearch xs
        else if x = '[' then
          match cutAtLast ']' xs with
          | some ys => some ('[' :: ys)
          | none => jsonSearch xs
        else jsonSearch xs := rfl

lemma jsonSearch_brace (mid : List Char) :
    jsonSearch ('{' :: (mid ++ ['}'])) = some ('{' :: (mid ++ ['}'])) := by
  rw [jsonSearch_cons, if_pos rfl, cutAtLast_append_self]

lemma jsonSearch_bracket (mid : List Char) :
    jsonSearch ('[' :: (mid ++ [']'])) = some ('[' :: (mid ++ [']'])) := by
  rw [jsonSearch_cons, if_neg (by decide), if_pos rfl, cutAtLast_append_self]

lemma cutAtLast_eq_none_not_mem (c : Char) (l : List Char)
    (h : cutAtLast c l = none) : c ∉ l := by
  induction l with
  | nil => simp
  | cons x xs ih =>
    unfold cutAtLast at h
    cases hx : cutAtLast c xs with
    | some ys => rw [hx] at h; cases h
    | none =>
      rw [hx] at h
      by_cases hxc : x = c
      · rw [if_pos hxc] at h; cases h
      · rw [if_neg hxc] at h
        simp [List.mem_cons, Ne.symm hxc, ih hx]

lemma cutAtLast_some_shape (c : Char) (l ys : List Char)
    (h : cutAtLast c l = some ys) :
    ∃ zs mid, l = ys ++ zs ∧ ys = mid ++ [c] := by
  induction l generalizing ys with
  | nil => cases h
  | cons x xs ih =>
    unfold cutAtLast at h
    cases hx : cutAtLast c xs with
    | some ys2 =>
      rw [hx] at h
      cases h
      obtain ⟨zs, mid, h1, h2⟩ := ih ys2 hx
      exact ⟨zs, x :: mid, by rw [h1]; rfl, by rw [h2]; rfl⟩
    | none =>
      rw [hx] at h
      by_cases hxc : x = c
      · rw [if_pos hxc] at h
        cases h
        exact ⟨xs, [], rfl, by rw [hxc]; rfl⟩
      · rw [if_neg hxc] at h
        cases h

lemma jsonSearch_of_hasPair (t : List Char) (h : hasPair t) :
    ∃ j, jsonSearch t = some j := by
  induction t with
  | nil =>
    exfalso
    rcases h with ⟨a, b, c, habc⟩ | ⟨a, b, c, habc⟩ <;> cases a <;> simp at habc
  | cons x xs ih =>
    unfold jsonSearch
    by_cases hx : x = '{'
    · rw [if_pos hx]
      cases hcut : cutAtLast '}' xs with
      | some ys => exact ⟨_, rfl⟩
      | none =>
        have hnm : '}' ∉ xs := cutAtLast_eq_none_not_mem _ _ hcut
        apply ih
        rcases h with ⟨a, b, c, habc⟩ | ⟨a, b, c, habc⟩
        · cases a with
          | nil =>
            exfalso
            rw [List.nil_append] at habc
            cases habc
            exact hnm (by simp)
          | cons a0 as =>
            rw [List.cons_append] at habc
            cases habc
            exact Or.inl ⟨as, b, c, rfl⟩
        · cases a with
          | nil =>
            exfalso
            rw [List.nil_append] at habc
            cases habc
            exact absurd hx (by decide)
          | cons a0 as =>
            rw [List.cons_append] at habc
            cases habc
            exact Or.inr ⟨as, b, c, rfl⟩
    · rw [if_neg hx]
      by_cases hx2 : x = '['
      · rw [if_pos hx2]
        cases hcut : cutAtLast ']' xs with
        | some ys => exact ⟨_, rfl⟩
        | none =>
          have hnm : ']' ∉ xs := cutAtLast_eq_none_not_mem _ _ hcut
          apply ih
          rcases h with ⟨a, b, c, habc⟩ | ⟨a, b, c, habc⟩
          · cases a with
            | nil =>
              exfalso
              rw [List.nil_append] at habc
              cases habc
              exact hx rfl
            | cons a0 as =>
              rw [List.cons_append] at habc
              cases habc
              exact Or.inl ⟨as, b, c, rfl⟩
          · cases a with
            | nil =>
              exfalso
              rw [List.nil_append] at habc
              cases habc
              exact hnm (by simp)
            | cons a0 as =>
              rw [List.cons_append] at habc
              cases habc
              exact Or.inr ⟨as, b, c, rfl⟩
      · rw [if_neg hx2]
        apply ih
        rcases h with ⟨a, b, c, habc⟩ | ⟨a, b, c, habc⟩
        · cases a with
          | nil =>
            exfalso
            rw [List.nil_append] at habc
            cases habc
            exact hx rfl
          | cons a0 as =>
            rw [List.cons_append] at habc
            cases habc
            exact Or.inl ⟨as, b, c, rfl⟩
        · cases a with
          | nil =>
            exfalso
            rw [List.nil_append] at habc
            cases habc
            exact hx2 rfl
          | cons a0 as =>
            rw [List.cons_append] at habc
            cases habc
            exact Or.inr ⟨as, b, c, rfl⟩

lemma jsonSearch_some_shape (t j : List Char) (h : jsonSearch t = some j) :
    (∃ pre post, t = pre ++ j ++ post) ∧ jsonDelimited j := by
  induction t generalizing j with
  | nil => cases h
  | cons x xs ih =>
    unfold jsonSearch at h
    by_cases hx : x = '{'
    · subst hx
      rw [if_pos rfl] at h
      cases hcut : cutAtLast '}' xs with
      | some ys =>
        rw [hcut] at h
        cases h
        obtain ⟨zs, mid, h1, h2⟩ := cutAtLast_some_shape '}' xs ys hcut
        constructor
        · exact ⟨[], zs, by rw [h1]; rfl⟩
        · exact Or.inl ⟨mid, by rw [h2]⟩
      | none =>
        rw [hcut] at h
        obtain ⟨⟨pre, post, hsplit⟩, hdel⟩ := ih j h
        exact ⟨⟨'{' :: pre, post, by rw [hsplit]; rfl⟩, hdel⟩
    · rw [if_neg hx] at h
      by_cases hx2 : x = '['
      · subst hx2
        rw [if_pos rfl] at h
        cases hcut : cutAtLast ']' xs with
        | some ys =>
          rw [hcut] at h
          cases h
          obtain ⟨zs, mid, h1, h2⟩ := cutAtLast_some_shape ']' xs ys hcut
          constructor
          · exact ⟨[], zs, by rw [h1]; rfl⟩
          · exact Or.inr ⟨mid, by rw [h2]⟩
        | none =>
          rw [hcut] at h
          obtain ⟨⟨pre, post, hsplit⟩, hdel⟩ := ih j h
          exact ⟨⟨'[' :: pre, post, by rw [hsplit]; rfl⟩, hdel⟩
      · rw [if_neg hx2] at h
        obtain ⟨⟨pre, post, hsplit⟩, hdel⟩ := ih j h
        exact ⟨⟨x :: pre, post, by rw [hsplit]; rfl⟩, hdel⟩

/-- C2 amended: for every input that wraps a brace- or bracket-delimited
JSON payload in markdown code fences (``` or ```json) with no backtick
inside the fenced body (and, for the untagged form, a body not starting
with the letters `json`), `extract_json_from_text` returns the stripped
fenced body, which contains no fence marker; and for every input, when
the text left after fence handling contains a `{...}` or `[...]`
substring, the returned string is a brace- or bracket-delimited infix of
that text. -/
theorem extract_json_fence_and_delimited :
    (∀ body : List Char,
      (∀ c ∈ body, c ≠ '`') →
      jsonDelimited (pyStrip body) →
      (∀ c ∈ pyStrip body, c ≠ '`') ∧
      extract_json_from_text (fence3 ++ "json".toList ++ body ++ fence3) = pyStrip body ∧
      (("json".toList).isPrefixOf body = false →
        extract_json_from_text (fence3 ++ body ++ fence3) = pyStrip body)) ∧
    (∀ s : List Char, hasPair (fenceStep (pyStrip s)) →
      jsonDelimited (extract_json_from_text s) ∧
      ∃ pre post, fenceStep (pyStrip s) = pre ++ extract_json_from_text s ++ post) := by
  constructor
  · intro body hbt hshape
    have hnb : ∀ c ∈ pyStrip body, c ≠ '`' :=
      fun c hc => hbt c (pyStrip_subset body c hc)
    have hjs : jsonSearch (pyStrip body) = some (pyStrip body) := by
      rcases hshape with ⟨mid, hm⟩ | ⟨mid, hm⟩
      · rw [hm]; exact jsonSearch_brace mid
      · rw [hm]; exact jsonSearch_bracket mid
    refine ⟨hnb, ?_, ?_⟩
    · have hps : pyStrip (fence3 ++ "json".toList ++ body ++ fence3)
          = fence3 ++ "json".toList ++ body ++ fence3 := by
        have h := pyStrip_fence_wrapped ("json".toList ++ body)
        rw [show fence3 ++ ("json".toList ++ body) ++ fence3
            = fence3 ++ "json".toList ++ body ++ fence3 from by
          simp [List.append_assoc]] at h
        exact h
      have hext : extract_json_from_text (fence3 ++ "json".toList ++ body ++ fence3)
          = (match jsonSearch (fenceStep
                (pyStrip (fence3 ++ "json".toList ++ body ++ fence3))) with
             | some j => j
             | none => fenceStep (pyStrip (fence3 ++ "json".toList ++ body ++ fence3)))
          := rfl
      rw [hext, hps, fenceStep_wrapped_json body hbt, hjs]
    · intro hjson
      have hps : pyStrip (fence3 ++ body ++ fence3) = fence3 ++ body ++ fence3 :=
        pyStrip_fence_wrapped body
      have hext : extract_json_from_text (fence3 ++ body ++ fence3)
          = (match jsonSearch (fenceStep (pyStrip (fence3 ++ body ++ fence3))) with
             | some j => j
             | none => fenceStep (pyStrip (fence3 ++ body ++ fence3))) := rfl
      rw [hext, hps,
        fenceStep_wrapped body hbt (json_prefix_append_fence body hjson), hjs]
  · intro s hp
    obtain ⟨j, hj⟩ := jsonSearch_of_hasPair _ hp
    obtain ⟨⟨pre, post, hsplit⟩, hdel⟩ := jsonSearch_some_shape _ _ hj
    have hext : extract_json_from_text s
        = (match jsonSearch (fenceStep (pyStrip s)) with
           | some j => j
           | none => fenceStep (pyStrip s)) := rfl
    rw [hext, hj]
    exact ⟨hdel, pre, post, hsplit⟩

/-- C2 amended witness: the JSON object `{"a":1}` wrapped in tagged and
untagged fences, and a fence-free input containing `{y}`. -/
theorem extract_json_fence_and_delimited_witness :
    (extract_json_from_text (fence3 ++ "json".toList ++ "\x7b\"a\":1\x7d".toList ++ fence3)
      = pyStrip ("\x7b\"a\":1\x7d".toList)) ∧
    (extract_json_from_text (fence3 ++ "\x7b\"a\":1\x7d".toList ++ fence3)
      = pyStrip ("\x7b\"a\":1\x7d".toList)) ∧
    (jsonDelimited (extract_json_from_text ("x\x7by\x7d".toList)) ∧
      ∃ pre post, fenceStep (pyStrip ("x\x7by\x7d".toList))
        = pre ++ extract_json_from_text ("x\x7by\x7d".toList) ++ post) :=
  ⟨(extract_json_fence_and_delimited.1 ("\x7b\"a\":1\x7d".toList)
      (by decide) (Or.inl ⟨"\"a\":1".toList, by decide⟩)).2.1,
   (extract_json_fence_and_delimited.1 ("\x7b\"a\":1\x7d".toList)
      (by decide) (Or.inl ⟨"\"a\":1".toList, by decide⟩)).2.2 (by decide),
   extract_json_fence_and_delimited.2 ("x\x7by\x7d".toList)
      (Or.inl ⟨['x'], ['y'], [], by decide⟩)⟩
